import Mathlib

/-!
# Attach / run / detach protocol of `attach-detach-while-destruction`

Shallow embedding of `src/attach-detach-while-destruction/src/main.cpp`.

* A `graal_isolatethread_t *` is a natural number, `0` being `nullptr`.
* The GraalVM runtime (`graal_get_current_thread`, `graal_attach_thread`,
  `graal_detach_thread`) is an external collaborator.  It is a record of reply
  functions of the history of the calling thread, so that every sequence of
  replies is the behaviour of some collaborator.
* One thread is its `thread_local` slot `graalCurrentThreadHandle` together
  with the history of what it did at the boundary: the calls into the runtime
  with their replies, and the invocations of the caller-supplied operation.
* The program-wide globals written once by `graal_create_isolate` are a record.
* Threads share nothing but the runtime (the slot is `thread_local`), so a set of
  threads is a list of threads, each with the replies the runtime gives to it.

The diagnostics written to `std::cerr` and the two mutexes (`ioMutex`, and the
`thread_local` `graalCurrentThreadHandleMutex`, never held across a call) have
no influence on the slot or on the calls made and are left out.
-/

namespace AttachDetach

/-- A `graal_isolatethread_t *`; `0` is `nullptr`. -/
abbrev Handle := Nat

/-- What a thread does at the boundary of the program, in order. -/
inductive Event where
  /-- A call `graal_get_current_thread(graalIsolateHandle)` that replied `reply`. -/
  | getCurrentThread (reply : Handle)
  /-- A call `graal_attach_thread(graalIsolateHandle, &currentThreadHandle)` that
  returned `status` and left `out` in `currentThreadHandle`. -/
  | attachThread (status : Int) (out : Handle)
  /-- A call `graal_detach_thread(arg)` that returned `status`. -/
  | detachThread (arg : Handle) (status : Int)
  /-- The operation ran, `std::invoke(f, arg)`, while `graalCurrentThreadHandle` was
  `slot`. -/
  | invoke (arg : Handle) (slot : Handle)
  deriving DecidableEq, Repr

/-- The external runtime: each reply is a function of the history so far. -/
structure Graal where
  /-- The reply of `graal_get_current_thread`; `0` when the thread is not registered. -/
  graal_get_current_thread : List Event → Handle
  /-- The status of `graal_attach_thread` and the handle it leaves in the out parameter
  (which the caller initialised to `nullptr`). -/
  graal_attach_thread : List Event → Int × Handle
  /-- The status of `graal_detach_thread` on a handle. -/
  graal_detach_thread : List Event → Handle → Int

/-- The globals set by `graal_create_isolate` before `main` starts. -/
structure Globals where
  /-- The global `createIsolateResult`. -/
  createIsolateResult : Int
  /-- The global `graalIsolateThreadHandle`, the handle of the main thread. -/
  graalIsolateThreadHandle : Handle
  deriving DecidableEq, Repr

/-- One thread: its `thread_local` slot and its history. -/
structure Thread where
  /-- The `thread_local graalCurrentThreadHandle`. -/
  graalCurrentThreadHandle : Handle
  /-- The calls made so far, oldest first. -/
  trace : List Event
  deriving DecidableEq, Repr

/-- Append one event to the history of a thread. -/
def Thread.record (t : Thread) (e : Event) : Thread :=
  { t with trace := t.trace ++ [e] }

/-- The function `tryRunIsolated(F &&f)`, lines 20-75.  The result type `R` of `f` has a
value-initialised element `default` (for `void`, `R = Unit`). -/
def tryRunIsolated {R : Type} [Inhabited R] (g : Graal) (gl : Globals) (f : Handle → R)
    (t : Thread) : R × Thread :=
  if gl.createIsolateResult ≠ 0 then
    (default, t)
  else
    let currentThreadHandle := g.graal_get_current_thread t.trace
    let t := t.record (.getCurrentThread currentThreadHandle)
    if currentThreadHandle ≠ 0 then
      (f currentThreadHandle, t.record (.invoke currentThreadHandle t.graalCurrentThreadHandle))
    else if t.graalCurrentThreadHandle ≠ 0 then
      (f t.graalCurrentThreadHandle,
        t.record (.invoke t.graalCurrentThreadHandle t.graalCurrentThreadHandle))
    else
      let attach := g.graal_attach_thread t.trace
      let attachResult := attach.1
      let currentThreadHandle := attach.2
      let t := t.record (.attachThread attachResult currentThreadHandle)
      if attachResult ≠ 0 then
        (default, t)
      else
        let t := { t with graalCurrentThreadHandle := currentThreadHandle }
        (f t.graalCurrentThreadHandle,
          t.record (.invoke t.graalCurrentThreadHandle t.graalCurrentThreadHandle))

/-- The function `detachThead()`, lines 77-107. -/
def detachThead (g : Graal) (gl : Globals) (t : Thread) : Thread :=
  if t.graalCurrentThreadHandle = 0 ∨
      t.graalCurrentThreadHandle = gl.graalIsolateThreadHandle then
    t
  else
    let result := g.graal_detach_thread t.trace t.graalCurrentThreadHandle
    let t := t.record (.detachThread t.graalCurrentThreadHandle result)
    if result = 0 then
      { t with graalCurrentThreadHandle := 0 }
    else
      t

/-- One call made by a thread: `tryRunIsolated` with some operation, or `detachThead`. -/
inductive Call : Type 1 where
  /-- A call `tryRunIsolated(f)` with `f : Handle → R`. -/
  | tryRunIsolated (R : Type) (inst : Inhabited R) (f : Handle → R)
  /-- A call `detachThead()`. -/
  | detachThead

/-- The thread after one call (the result of the operation is dropped). -/
def Call.run (g : Graal) (gl : Globals) (t : Thread) : Call → Thread
  | .tryRunIsolated R inst f => (@AttachDetach.tryRunIsolated R inst g gl f t).2
  | .detachThead => AttachDetach.detachThead g gl t

/-- The thread after a finite sequence of calls, made in order. -/
def runCalls (g : Graal) (gl : Globals) (t : Thread) (cs : List Call) : Thread :=
  cs.foldl (Call.run g gl) t

/-- The thread after `k` consecutive calls of `detachThead()`. -/
def detachTimes (g : Graal) (gl : Globals) : Nat → Thread → Thread
  | 0, t => t
  | k + 1, t => detachTimes g gl k (detachThead g gl t)

/-- An event is a call of `graal_detach_thread`. -/
def Event.isDetach : Event → Bool
  | .detachThread _ _ => true
  | _ => false

/-- An event is a call of `graal_attach_thread`. -/
def Event.isAttach : Event → Bool
  | .attachThread _ _ => true
  | _ => false

/-- An event is an invocation of the operation. -/
def Event.isInvoke : Event → Bool
  | .invoke _ _ => true
  | _ => false

/-- The events a call added to the history: what `after` has beyond `before`. -/
def callEvents (before after : Thread) : List Event :=
  after.trace.drop before.trace.length

/-- No call of `graal_detach_thread` in a history received the main-thread handle or
`nullptr`. -/
def DetachArgsOk (gl : Globals) (tr : List Event) : Prop :=
  ∀ a r, Event.detachThread a r ∈ tr → a ≠ gl.graalIsolateThreadHandle ∧ a ≠ 0

/-- A runtime whose replies are the same whatever the history: the probe replies `probe`,
attach replies `attach`, detach returns `detach`. -/
def constGraal (probe : Handle) (attach : Int × Handle) (detach : Int) : Graal where
  graal_get_current_thread := fun _ => probe
  graal_attach_thread := fun _ => attach
  graal_detach_thread := fun _ _ => detach

/-- How many times the operation ran during one call of `tryRunIsolated`. -/
def invocations {R : Type} [Inhabited R] (g : Graal) (gl : Globals) (f : Handle → R)
    (t : Thread) : Nat :=
  (callEvents t (tryRunIsolated g gl f t).2).countP Event.isInvoke

/-- One of several threads about to call `tryRunIsolated`: the replies the runtime gives
to this thread, the operation it passes, and its own slot and history. -/
structure Caller (R : Type) where
  /-- The runtime as this thread sees it. -/
  runtime : Graal
  /-- The operation this thread passes to `tryRunIsolated`. -/
  operation : Handle → R
  /-- The slot and history of this thread. -/
  thread : Thread

/-- Each thread of a set calls `tryRunIsolated` exactly once, on its own `thread_local`
slot: the number of times each thread's operation ran. -/
def invocationsOfEach {R : Type} [Inhabited R] (gl : Globals) (cs : List (Caller R)) :
    List Nat :=
  cs.map (fun c => invocations c.runtime gl c.operation c.thread)

/-- The constructor `Test::Test()`, lines 111-124: one `tryRunIsolated` of a `void` lambda. -/
def Test.construct (g : Graal) (gl : Globals) (t : Thread) : Thread :=
  (tryRunIsolated g gl (fun _ => ()) t).2

/-- The destructor `Test::~Test()`, lines 126-141: one `tryRunIsolated` of a `void` lambda,
then `detachThead()`. -/
def Test.destruct (g : Graal) (gl : Globals) (t : Thread) : Thread :=
  detachThead g gl (tryRunIsolated g gl (fun _ => ()) t).2

/-- The method `Test::print()`, lines 143-156: one `tryRunIsolated` of a `void` lambda. -/
def Test.print (g : Graal) (gl : Globals) (t : Thread) : Thread :=
  (tryRunIsolated g gl (fun _ => ()) t).2

/-- The destructor `Detacher::~Detacher()`, lines 160-167: `detachThead()`. -/
def Detacher.destruct (g : Graal) (gl : Globals) (t : Thread) : Thread :=
  detachThead g gl t

/-- The body of a worker thread, line 186: `test.print()`.  The first use of the
`thread_local Test test{}` of line 170 constructs it on this thread beforehand. -/
def workerBody (g : Graal) (gl : Globals) (t : Thread) : Thread :=
  Test.print g gl (Test.construct g gl t)

/-- The teardown of the `thread_local` objects of lines 170-171 at thread exit.  Objects of
thread storage duration are destroyed in the reverse of the order in which they were
initialised, which within one translation unit is the order of declaration: `detacher`
(line 171) is destroyed first, then `test` (line 170). -/
def threadExit (g : Graal) (gl : Globals) (t : Thread) : Thread :=
  Test.destruct g gl (Detacher.destruct g gl t)

/-- A worker thread from start to end: its body, then the teardown at thread exit. -/
def workerThread (g : Graal) (gl : Globals) (t : Thread) : Thread :=
  threadExit g gl (workerBody g gl t)

/-- The function `main()`, lines 175-195: the returned status and the worker threads as
they are once joined.  `capacity` is `threads.capacity()` after `threads.reserve(16)`, the
bound of the spawning loop; worker `i` sees the runtime as `g i` and starts with an empty
slot and an empty history.  The final `sleep_for(30s)` is left out. -/
def main (g : Nat → Graal) (gl : Globals) (capacity : Nat) : Int × List Thread :=
  if gl.createIsolateResult ≠ 0 then
    (gl.createIsolateResult, [])
  else
    (0, (List.range capacity).map (fun i => workerThread (g i) gl ⟨0, []⟩))

/-- How many times a thread called `graal_attach_thread`. -/
def Thread.attachCalls (t : Thread) : Nat :=
  t.trace.countP Event.isAttach

/-- How many times a thread called `graal_detach_thread`. -/
def Thread.detachCalls (t : Thread) : Nat :=
  t.trace.countP Event.isDetach

/-- How many times a thread ran an operation. -/
def Thread.invokeCalls (t : Thread) : Nat :=
  t.trace.countP Event.isInvoke

/-- Every call into the runtime succeeds for a thread that the runtime does not know
beforehand: the probe replies `nullptr`, every attach returns `0` with a handle that is
neither `nullptr` nor the main-thread handle, and every detach returns `0`. -/
def AllCallsSucceed (gl : Globals) (g : Graal) : Prop :=
  (∀ tr, g.graal_get_current_thread tr = 0) ∧
  (∀ tr, (g.graal_attach_thread tr).1 = 0 ∧ (g.graal_attach_thread tr).2 ≠ 0 ∧
    (g.graal_attach_thread tr).2 ≠ gl.graalIsolateThreadHandle) ∧
  (∀ tr h, g.graal_detach_thread tr h = 0)

/-! ### The branches of the two functions -/

/-- Lines 85-90: an empty slot, or the main-thread handle, makes `detachThead` return at once. -/
theorem detachThead_guard (g : Graal) (gl : Globals) (t : Thread)
    (h : t.graalCurrentThreadHandle = 0 ∨
      t.graalCurrentThreadHandle = gl.graalIsolateThreadHandle) :
    detachThead g gl t = t := by
  unfold detachThead
  rw [if_pos h]

/-- Lines 92-106 when `graal_detach_thread` returns `0`. -/
theorem detachThead_success (g : Graal) (gl : Globals) (t : Thread)
    (hne : t.graalCurrentThreadHandle ≠ 0)
    (hmain : t.graalCurrentThreadHandle ≠ gl.graalIsolateThreadHandle)
    (hr : g.graal_detach_thread t.trace t.graalCurrentThreadHandle = 0) :
    detachThead g gl t =
      ⟨0, t.trace ++ [.detachThread t.graalCurrentThreadHandle 0]⟩ := by
  have hguard : ¬ (t.graalCurrentThreadHandle = 0 ∨
      t.graalCurrentThreadHandle = gl.graalIsolateThreadHandle) := by
    rintro (h | h)
    · exact hne h
    · exact hmain h
  unfold detachThead
  rw [if_neg hguard]
  simp only [hr, Thread.record, if_true]

/-- Lines 92-106 when `graal_detach_thread` returns a status other than `0`. -/
theorem detachThead_failure (g : Graal) (gl : Globals) (t : Thread)
    (hne : t.graalCurrentThreadHandle ≠ 0)
    (hmain : t.graalCurrentThreadHandle ≠ gl.graalIsolateThreadHandle)
    (hr : g.graal_detach_thread t.trace t.graalCurrentThreadHandle ≠ 0) :
    detachThead g gl t =
      ⟨t.graalCurrentThreadHandle, t.trace ++ [.detachThread t.graalCurrentThreadHandle
        (g.graal_detach_thread t.trace t.graalCurrentThreadHandle)]⟩ := by
  have hguard : ¬ (t.graalCurrentThreadHandle = 0 ∨
      t.graalCurrentThreadHandle = gl.graalIsolateThreadHandle) := by
    rintro (h | h)
    · exact hne h
    · exact hmain h
  unfold detachThead
  rw [if_neg hguard]
  simp only [hr, Thread.record, if_false]

/-- Lines 23-29: the isolate was not created. -/
theorem tryRunIsolated_not_created {R : Type} [Inhabited R] (g : Graal) (gl : Globals)
    (f : Handle → R) (t : Thread) (hc : gl.createIsolateResult ≠ 0) :
    tryRunIsolated g gl f t = (default, t) := by
  unfold tryRunIsolated
  rw [if_pos hc]

/-- Lines 31-41: the probe replies a handle. -/
theorem tryRunIsolated_reentrant {R : Type} [Inhabited R] (g : Graal) (gl : Globals)
    (f : Handle → R) (t : Thread) (hc : gl.createIsolateResult = 0)
    (hp : g.graal_get_current_thread t.trace ≠ 0) :
    tryRunIsolated g gl f t =
      (f (g.graal_get_current_thread t.trace),
        ⟨t.graalCurrentThreadHandle, t.trace ++
          [.getCurrentThread (g.graal_get_current_thread t.trace),
           .invoke (g.graal_get_current_thread t.trace) t.graalCurrentThreadHandle]⟩) := by
  unfold tryRunIsolated
  simp only [hc, ne_eq, not_true_eq_false, if_false, hp, not_false_eq_true, if_true,
    Thread.record, List.append_assoc, List.singleton_append]

/-- Lines 43-51: the probe replies `nullptr` and the slot holds a handle. -/
theorem tryRunIsolated_cached {R : Type} [Inhabited R] (g : Graal) (gl : Globals)
    (f : Handle → R) (t : Thread) (hc : gl.createIsolateResult = 0)
    (hp : g.graal_get_current_thread t.trace = 0)
    (hs : t.graalCurrentThreadHandle ≠ 0) :
    tryRunIsolated g gl f t =
      (f t.graalCurrentThreadHandle,
        ⟨t.graalCurrentThreadHandle, t.trace ++
          [.getCurrentThread 0,
           .invoke t.graalCurrentThreadHandle t.graalCurrentThreadHandle]⟩) := by
  unfold tryRunIsolated
  simp only [hc, ne_eq, not_true_eq_false, if_false, hp, hs, not_false_eq_true, if_true,
    Thread.record, List.append_assoc, List.singleton_append]

/-- Lines 53-67: the probe replies `nullptr`, the slot is empty and attach fails. -/
theorem tryRunIsolated_attach_failure {R : Type} [Inhabited R] (g : Graal) (gl : Globals)
    (f : Handle → R) (t : Thread) (hc : gl.createIsolateResult = 0)
    (hp : g.graal_get_current_thread t.trace = 0)
    (hs : t.graalCurrentThreadHandle = 0)
    (ha : (g.graal_attach_thread (t.trace ++ [.getCurrentThread 0])).1 ≠ 0) :
    tryRunIsolated g gl f t =
      (default,
        ⟨0, t.trace ++
          [.getCurrentThread 0,
           .attachThread (g.graal_attach_thread (t.trace ++ [.getCurrentThread 0])).1
             (g.graal_attach_thread (t.trace ++ [.getCurrentThread 0])).2]⟩) := by
  unfold tryRunIsolated
  simp only [hc, ne_eq, not_true_eq_false, if_false, hp, hs, ha, not_false_eq_true, if_true,
    Thread.record, List.append_assoc, List.singleton_append]

/-- Lines 53-74: the probe replies `nullptr`, the slot is empty and attach succeeds. -/
theorem tryRunIsolated_attach_success {R : Type} [Inhabited R] (g : Graal) (gl : Globals)
    (f : Handle → R) (t : Thread) (hc : gl.createIsolateResult = 0)
    (hp : g.graal_get_current_thread t.trace = 0)
    (hs : t.graalCurrentThreadHandle = 0)
    (ha : (g.graal_attach_thread (t.trace ++ [.getCurrentThread 0])).1 = 0) :
    tryRunIsolated g gl f t =
      (f (g.graal_attach_thread (t.trace ++ [.getCurrentThread 0])).2,
        ⟨(g.graal_attach_thread (t.trace ++ [.getCurrentThread 0])).2, t.trace ++
          [.getCurrentThread 0,
           .attachThread 0 (g.graal_attach_thread (t.trace ++ [.getCurrentThread 0])).2,
           .invoke (g.graal_attach_thread (t.trace ++ [.getCurrentThread 0])).2
             (g.graal_attach_thread (t.trace ++ [.getCurrentThread 0])).2]⟩) := by
  unfold tryRunIsolated
  simp only [hc, ne_eq, not_true_eq_false, if_false, hp, hs, ha, not_false_eq_true, if_true,
    Thread.record, List.append_assoc, List.singleton_append, List.cons_append, List.nil_append]

/-- The events added by a call that extended the history by `evs`. -/
theorem callEvents_append (s : Handle) (tr evs : List Event) (s' : Handle) :
    callEvents ⟨s, tr⟩ ⟨s', tr ++ evs⟩ = evs := by
  simp [callEvents]

/-- A call of `tryRunIsolated` only appends events that are not detach calls. -/
theorem tryRunIsolated_trace {R : Type} [Inhabited R] (g : Graal) (gl : Globals)
    (f : Handle → R) (t : Thread) :
    ∃ evs, (tryRunIsolated g gl f t).2.trace = t.trace ++ evs ∧
      ∀ e ∈ evs, e.isDetach = false := by
  by_cases hc : gl.createIsolateResult = 0
  · by_cases hp : g.graal_get_current_thread t.trace = 0
    · by_cases hs : t.graalCurrentThreadHandle = 0
      · by_cases ha : (g.graal_attach_thread (t.trace ++ [.getCurrentThread 0])).1 = 0
        · rw [tryRunIsolated_attach_success g gl f t hc hp hs ha]
          exact ⟨_, rfl, by simp [Event.isDetach]⟩
        · rw [tryRunIsolated_attach_failure g gl f t hc hp hs ha]
          exact ⟨_, rfl, by simp [Event.isDetach]⟩
      · rw [tryRunIsolated_cached g gl f t hc hp hs]
        exact ⟨_, rfl, by simp [Event.isDetach]⟩
    · rw [tryRunIsolated_reentrant g gl f t hc hp]
      exact ⟨_, rfl, by simp [Event.isDetach]⟩
  · rw [tryRunIsolated_not_created g gl f t hc]
    exact ⟨[], by simp, by simp⟩

/-- A call of `tryRunIsolated` keeps `DetachArgsOk`. -/
theorem tryRunIsolated_detachArgsOk {R : Type} [Inhabited R] (g : Graal) (gl : Globals)
    (f : Handle → R) (t : Thread) (h : DetachArgsOk gl t.trace) :
    DetachArgsOk gl (tryRunIsolated g gl f t).2.trace := by
  obtain ⟨evs, he, hd⟩ := tryRunIsolated_trace g gl f t
  intro a r hmem
  rw [he, List.mem_append] at hmem
  rcases hmem with hmem | hmem
  · exact h a r hmem
  · have := hd _ hmem
    simp [Event.isDetach] at this

/-- A call of `detachThead` keeps `DetachArgsOk`. -/
theorem detachThead_detachArgsOk (g : Graal) (gl : Globals) (t : Thread)
    (h : DetachArgsOk gl t.trace) : DetachArgsOk gl (detachThead g gl t).trace := by
  by_cases hne : t.graalCurrentThreadHandle = 0
  · rw [detachThead_guard g gl t (Or.inl hne)]
    exact h
  · by_cases hmain : t.graalCurrentThreadHandle = gl.graalIsolateThreadHandle
    · rw [detachThead_guard g gl t (Or.inr hmain)]
      exact h
    · have key : ∀ r, DetachArgsOk gl
          (t.trace ++ [.detachThread t.graalCurrentThreadHandle r]) := by
        intro r a r' hmem
        rw [List.mem_append, List.mem_singleton] at hmem
        rcases hmem with hmem | hmem
        · exact h a r' hmem
        · cases hmem
          exact ⟨hmain, hne⟩
      by_cases hr : g.graal_detach_thread t.trace t.graalCurrentThreadHandle = 0
      · rw [detachThead_success g gl t hne hmain hr]
        exact key 0
      · rw [detachThead_failure g gl t hne hmain hr]
        exact key _

/-- A finite sequence of calls keeps `DetachArgsOk`, from any slot. -/
theorem runCalls_detachArgsOk (g : Graal) (gl : Globals) (cs : List Call) :
    ∀ t : Thread, DetachArgsOk gl t.trace → DetachArgsOk gl (runCalls g gl t cs).trace := by
  induction cs with
  | nil => intro t h; exact h
  | cons c cs ih =>
    intro t h
    have hstep : DetachArgsOk gl (Call.run g gl t c).trace := by
      cases c with
      | tryRunIsolated R inst f => exact @tryRunIsolated_detachArgsOk R inst g gl f t h
      | detachThead => exact detachThead_detachArgsOk g gl t h
    exact ih _ hstep

/-- The events added by a call, read off the history after it. -/
theorem callEvents_of_trace (before after : Thread) (evs : List Event)
    (h : after.trace = before.trace ++ evs) : callEvents before after = evs := by
  simp [callEvents, h]

/-- On an empty slot any number of `detachThead` calls leaves the thread as it was. -/
theorem detachTimes_empty (g : Graal) (gl : Globals) (k : Nat) (t : Thread)
    (hs : t.graalCurrentThreadHandle = 0) : detachTimes g gl k t = t := by
  induction k with
  | zero => rfl
  | succ k ih =>
    show detachTimes g gl k (detachThead g gl t) = t
    rw [detachThead_guard g gl t (Or.inl hs)]
    exact ih

/-- The operation runs once in a call of `tryRunIsolated` when the isolate was created and
a handle is at hand (from the probe, from the slot, or from a successful attach), and does
not run otherwise. -/
theorem invocations_eq {R : Type} [Inhabited R] (g : Graal) (gl : Globals)
    (f : Handle → R) (t : Thread) :
    invocations g gl f t =
      if gl.createIsolateResult = 0 ∧
          (g.graal_get_current_thread t.trace ≠ 0 ∨ t.graalCurrentThreadHandle ≠ 0 ∨
            (g.graal_attach_thread (t.trace ++ [.getCurrentThread 0])).1 = 0)
        then 1 else 0 := by
  unfold invocations
  by_cases hc : gl.createIsolateResult = 0
  · by_cases hp : g.graal_get_current_thread t.trace = 0
    · by_cases hs : t.graalCurrentThreadHandle = 0
      · by_cases ha : (g.graal_attach_thread (t.trace ++ [.getCurrentThread 0])).1 = 0
        · have hrun := tryRunIsolated_attach_success g gl f t hc hp hs ha
          rw [callEvents_of_trace t _ _ (by rw [hrun]), if_pos ⟨hc, Or.inr (Or.inr ha)⟩]
          simp [Event.isInvoke, List.countP_cons]
        · have hrun := tryRunIsolated_attach_failure g gl f t hc hp hs ha
          rw [callEvents_of_trace t _ _ (by rw [hrun]),
            if_neg (by rintro ⟨-, h | h | h⟩ <;> contradiction)]
          simp [Event.isInvoke, List.countP_cons]
      · have hrun := tryRunIsolated_cached g gl f t hc hp hs
        rw [callEvents_of_trace t _ _ (by rw [hrun]), if_pos ⟨hc, Or.inr (Or.inl hs)⟩]
        simp [Event.isInvoke, List.countP_cons]
    · have hrun := tryRunIsolated_reentrant g gl f t hc hp
      rw [callEvents_of_trace t _ _ (by rw [hrun]), if_pos ⟨hc, Or.inl hp⟩]
      simp [Event.isInvoke, List.countP_cons]
  · have hrun := tryRunIsolated_not_created g gl f t hc
    rw [callEvents_of_trace t _ [] (by rw [hrun]; simp), if_neg (fun h => hc h.1)]
    rfl

/-- With an empty slot, a created isolate and a probe replying `nullptr`, a call of
`tryRunIsolated` calls `graal_attach_thread` exactly once. -/
theorem attach_once_of_empty {R : Type} [Inhabited R] (g : Graal) (gl : Globals)
    (f : Handle → R) (t : Thread) (hc : gl.createIsolateResult = 0)
    (hp : g.graal_get_current_thread t.trace = 0) (hs : t.graalCurrentThreadHandle = 0) :
    (callEvents t (tryRunIsolated g gl f t).2).countP Event.isAttach = 1 := by
  by_cases ha : (g.graal_attach_thread (t.trace ++ [.getCurrentThread 0])).1 = 0
  · have hrun := tryRunIsolated_attach_success g gl f t hc hp hs ha
    rw [callEvents_of_trace t _ _ (by rw [hrun])]
    simp [Event.isAttach, List.countP_cons]
  · have hrun := tryRunIsolated_attach_failure g gl f t hc hp hs ha
    rw [callEvents_of_trace t _ _ (by rw [hrun])]
    simp [Event.isAttach, List.countP_cons]

/-- When every call succeeds, `tryRunIsolated` on an empty slot attaches and runs. -/
theorem tryRunIsolated_fresh (g : Graal) (gl : Globals) (hc : gl.createIsolateResult = 0)
    (hg : AllCallsSucceed gl g) (tr : List Event) :
    ∃ h : Handle, h ≠ 0 ∧ h ≠ gl.graalIsolateThreadHandle ∧
      (tryRunIsolated g gl (fun _ => ()) ⟨0, tr⟩).2 =
        ⟨h, tr ++ [.getCurrentThread 0, .attachThread 0 h, .invoke h h]⟩ := by
  refine ⟨(g.graal_attach_thread (tr ++ [.getCurrentThread 0])).2, (hg.2.1 _).2.1,
    (hg.2.1 _).2.2, ?_⟩
  rw [tryRunIsolated_attach_success g gl (fun _ => ()) ⟨0, tr⟩ hc (hg.1 _) rfl (hg.2.1 _).1]

/-- When every call succeeds, `tryRunIsolated` on a slot holding `h` runs with `h`. -/
theorem tryRunIsolated_reuse (g : Graal) (gl : Globals) (hc : gl.createIsolateResult = 0)
    (hg : AllCallsSucceed gl g) (h : Handle) (hne : h ≠ 0) (tr : List Event) :
    (tryRunIsolated g gl (fun _ => ()) ⟨h, tr⟩).2 =
      ⟨h, tr ++ [.getCurrentThread 0, .invoke h h]⟩ := by
  rw [tryRunIsolated_cached g gl (fun _ => ()) ⟨h, tr⟩ hc (hg.1 _) hne]

/-- When every call succeeds, `detachThead` on a slot holding `h` detaches `h`. -/
theorem detachThead_ok (g : Graal) (gl : Globals) (hg : AllCallsSucceed gl g) (h : Handle)
    (hne : h ≠ 0) (hmain : h ≠ gl.graalIsolateThreadHandle) (tr : List Event) :
    detachThead g gl ⟨h, tr⟩ = ⟨0, tr ++ [.detachThread h 0]⟩ := by
  rw [detachThead_success g gl ⟨h, tr⟩ hne hmain (hg.2.2 _ _)]

/-- The whole history of a worker thread when the isolate was created and every call
succeeds: attach, run (constructor), run (print), detach (detacher), attach, run, detach
(destructor of `test`). -/
theorem workerThread_trace (g : Graal) (gl : Globals) (hc : gl.createIsolateResult = 0)
    (hg : AllCallsSucceed gl g) (tr : List Event) :
    ∃ h1 h2 : Handle, h1 ≠ 0 ∧ h1 ≠ gl.graalIsolateThreadHandle ∧ h2 ≠ 0 ∧
      h2 ≠ gl.graalIsolateThreadHandle ∧
      workerThread g gl ⟨0, tr⟩ =
        ⟨0, tr ++ [.getCurrentThread 0, .attachThread 0 h1, .invoke h1 h1,
          .getCurrentThread 0, .invoke h1 h1,
          .detachThread h1 0,
          .getCurrentThread 0, .attachThread 0 h2, .invoke h2 h2, .detachThread h2 0]⟩ := by
  obtain ⟨h1, h1ne, h1main, e1⟩ := tryRunIsolated_fresh g gl hc hg tr
  obtain ⟨h2, h2ne, h2main, e2⟩ := tryRunIsolated_fresh g gl hc hg
    (tr ++ [.getCurrentThread 0, .attachThread 0 h1, .invoke h1 h1] ++
      [.getCurrentThread 0, .invoke h1 h1] ++ [.detachThread h1 0])
  refine ⟨h1, h2, h1ne, h1main, h2ne, h2main, ?_⟩
  unfold workerThread threadExit workerBody Test.destruct Detacher.destruct Test.print
    Test.construct
  rw [e1, tryRunIsolated_reuse g gl hc hg h1 h1ne, detachThead_ok g gl hg h1 h1ne h1main,
    e2, detachThead_ok g gl hg h2 h2ne h2main]
  simp

/-- The counts of a worker thread that starts with an empty history, when the isolate was
created and every call succeeds. -/
theorem workerThread_counts (g : Graal) (gl : Globals) (hc : gl.createIsolateResult = 0)
    (hg : AllCallsSucceed gl g) :
    (workerThread g gl ⟨0, []⟩).graalCurrentThreadHandle = 0 ∧
    (workerThread g gl ⟨0, []⟩).attachCalls = 2 ∧
    (workerThread g gl ⟨0, []⟩).invokeCalls = 3 ∧
    (workerThread g gl ⟨0, []⟩).detachCalls = 2 := by
  obtain ⟨h1, h2, -, -, -, -, e⟩ := workerThread_trace g gl hc hg []
  rw [e]
  simp [Thread.attachCalls, Thread.invokeCalls, Thread.detachCalls, Event.isAttach,
    Event.isInvoke, Event.isDetach, List.countP_cons]

/-- The sum of a list of `n` numbers all equal to `a`. -/
theorem sum_of_all_eq (l : List Nat) (n a : Nat) (hl : l.length = n)
    (h : ∀ x ∈ l, x = a) : l.sum = n * a := by
  subst hl
  induction l with
  | nil => simp
  | cons x xs ih =>
    have hx : x = a := h x (List.mem_cons_self x xs)
    have hxs : ∀ y ∈ xs, y = a := fun y hy => h y (List.mem_cons_of_mem x hy)
    rw [List.sum_cons, ih hxs, hx, List.length_cons]
    ring

/-- A runtime that always replies `nullptr` to the probe, hands out the handle `a` and
detaches with status `0` makes every call succeed. -/
theorem constGraal_allCallsSucceed (gl : Globals) (a : Handle) (ha : a ≠ 0)
    (hm : a ≠ gl.graalIsolateThreadHandle) : AllCallsSucceed gl (constGraal 0 (0, a) 0) :=
  ⟨fun _ => rfl, fun _ => ⟨rfl, ha, hm⟩, fun _ _ => rfl⟩

/-! ### The claims -/

/-- C1: with a non-empty slot different from the main-thread handle, `detachThead` calls
the external detach once on the cached handle and the slot afterwards is empty when the
status is `0` and is the same handle when the status is not `0`; so the slot is cleared
if and only if the detach succeeded. -/
theorem detachThead_clears_iff_success (g : Graal) (gl : Globals) (t : Thread)
    (hne : t.graalCurrentThreadHandle ≠ 0)
    (hmain : t.graalCurrentThreadHandle ≠ gl.graalIsolateThreadHandle) :
    (g.graal_detach_thread t.trace t.graalCurrentThreadHandle = 0 →
        (detachThead g gl t).graalCurrentThreadHandle = 0) ∧
    (g.graal_detach_thread t.trace t.graalCurrentThreadHandle ≠ 0 →
        (detachThead g gl t).graalCurrentThreadHandle = t.graalCurrentThreadHandle) ∧
    ((detachThead g gl t).graalCurrentThreadHandle = 0 ↔
        g.graal_detach_thread t.trace t.graalCurrentThreadHandle = 0) ∧
    (detachThead g gl t).trace = t.trace ++
        [.detachThread t.graalCurrentThreadHandle
          (g.graal_detach_thread t.trace t.graalCurrentThreadHandle)] := by
  by_cases hr : g.graal_detach_thread t.trace t.graalCurrentThreadHandle = 0
  · rw [detachThead_success g gl t hne hmain hr]
    simp [hr]
  · rw [detachThead_failure g gl t hne hmain hr]
    simp [hr, hne]

/-- Witness for C1: slot `5`, main-thread handle `1`, detach failing with status `3`. -/
theorem detachThead_clears_iff_success_witness :
    (detachThead (constGraal 0 (0, 7) 3) ⟨0, 1⟩ ⟨5, []⟩).graalCurrentThreadHandle = 5 ∧
    (detachThead (constGraal 0 (0, 7) 3) ⟨0, 1⟩ ⟨5, []⟩).trace = [.detachThread 5 3] := by
  have h := detachThead_clears_iff_success (constGraal 0 (0, 7) 3) ⟨0, 1⟩ ⟨5, []⟩
    (by decide) (by decide)
  exact ⟨h.2.1 (by decide), h.2.2.2⟩

/-- C2: for every finite sequence of `tryRunIsolated` and `detachThead` calls made by a
thread that starts with an empty slot, and every runtime, no call of `graal_detach_thread`
in the history received the main-thread handle or `nullptr`; and when the slot is the
main-thread handle, `detachThead` makes no call and leaves the thread as it was. -/
theorem detach_never_receives_main_handle (g : Graal) (gl : Globals) (cs : List Call) :
    (∀ a r, Event.detachThread a r ∈ (runCalls g gl ⟨0, []⟩ cs).trace →
        a ≠ gl.graalIsolateThreadHandle ∧ a ≠ 0) ∧
    (∀ tr : List Event, detachThead g gl ⟨gl.graalIsolateThreadHandle, tr⟩ =
        ⟨gl.graalIsolateThreadHandle, tr⟩) := by
  refine ⟨?_, ?_⟩
  · apply runCalls_detachArgsOk g gl cs ⟨0, []⟩
    intro a r hmem
    simp at hmem
  · intro tr
    exact detachThead_guard g gl _ (Or.inr rfl)

/-- Witness for C2: attach, detach (of handle `7`), attach again with a runtime that hands
out `7`, while the main-thread handle is `1`. -/
theorem detach_never_receives_main_handle_witness :
    Event.detachThread 7 0 ∈ (runCalls (constGraal 0 (0, 7) 0) ⟨0, 1⟩ ⟨0, []⟩
        [.tryRunIsolated Unit ⟨()⟩ (fun _ => ()), .detachThead,
         .tryRunIsolated Unit ⟨()⟩ (fun _ => ())]).trace ∧
    ((7 : Handle) ≠ 1 ∧ (7 : Handle) ≠ 0) :=
  ⟨by decide,
   (detach_never_receives_main_handle (constGraal 0 (0, 7) 0) ⟨0, 1⟩
      [.tryRunIsolated Unit ⟨()⟩ (fun _ => ()), .detachThead,
       .tryRunIsolated Unit ⟨()⟩ (fun _ => ())]).1 7 0 (by decide)⟩

/-- C3: the slot holds `h`, not the main-thread handle, and `graal_detach_thread h`
returns `0`.  Then `detachThead` empties the slot, and the next `tryRunIsolated` (isolate
created, probe replying `nullptr`) calls `graal_attach_thread` exactly once; when that
returns `0` with handle `h'` the operation runs once with `h'`, the slot already being
`h'`, and the result is `f h'`.  The argument of the operation is what attach returned and
not the former content of the slot: `h` is passed only if the runtime hands out `h` again. -/
theorem fresh_attach_after_successful_detach {R : Type} [Inhabited R] (g : Graal)
    (gl : Globals) (f : Handle → R) (t : Thread)
    (hc : gl.createIsolateResult = 0)
    (hne : t.graalCurrentThreadHandle ≠ 0)
    (hmain : t.graalCurrentThreadHandle ≠ gl.graalIsolateThreadHandle)
    (hd : g.graal_detach_thread t.trace t.graalCurrentThreadHandle = 0)
    (hp : g.graal_get_current_thread
      (t.trace ++ [.detachThread t.graalCurrentThreadHandle 0]) = 0) :
    (detachThead g gl t).graalCurrentThreadHandle = 0 ∧
    (callEvents (detachThead g gl t)
        (tryRunIsolated g gl f (detachThead g gl t)).2).countP Event.isAttach = 1 ∧
    (∀ h' : Handle,
      g.graal_attach_thread (t.trace ++ [.detachThread t.graalCurrentThreadHandle 0,
        .getCurrentThread 0]) = (0, h') →
      tryRunIsolated g gl f (detachThead g gl t) =
        (f h', ⟨h', t.trace ++ [.detachThread t.graalCurrentThreadHandle 0,
          .getCurrentThread 0, .attachThread 0 h', .invoke h' h']⟩)) ∧
    (∀ x s, Event.invoke x s ∈ callEvents (detachThead g gl t)
        (tryRunIsolated g gl f (detachThead g gl t)).2 →
      x = (g.graal_attach_thread (t.trace ++ [.detachThread t.graalCurrentThreadHandle 0,
        .getCurrentThread 0])).2) ∧
    ((g.graal_attach_thread (t.trace ++ [.detachThread t.graalCurrentThreadHandle 0,
        .getCurrentThread 0])).2 ≠ t.graalCurrentThreadHandle →
      ∀ s, Event.invoke t.graalCurrentThreadHandle s ∉ callEvents (detachThead g gl t)
        (tryRunIsolated g gl f (detachThead g gl t)).2) := by
  rw [detachThead_success g gl t hne hmain hd]
  have happ : t.trace ++
      [Event.detachThread t.graalCurrentThreadHandle 0, Event.getCurrentThread 0] =
      t.trace ++ [Event.detachThread t.graalCurrentThreadHandle 0] ++
      [Event.getCurrentThread 0] := by
    simp
  rw [happ]
  by_cases ha : (g.graal_attach_thread (t.trace ++
      [.detachThread t.graalCurrentThreadHandle 0] ++ [.getCurrentThread 0])).1 = 0
  · have hrun := tryRunIsolated_attach_success g gl f
      ⟨0, t.trace ++ [.detachThread t.graalCurrentThreadHandle 0]⟩ hc hp rfl ha
    rw [hrun]
    dsimp only
    rw [callEvents_append]
    refine ⟨?_, ?_, ?_, ?_, ?_⟩
    · rfl
    · simp [Event.isAttach, List.countP_cons]
    · intro h' hh'
      rw [hh']
      simp
    · intro x s hmem
      simp only [List.mem_cons, List.mem_singleton, Event.invoke.injEq, reduceCtorEq,
        false_or, List.not_mem_nil, or_false] at hmem
      exact hmem.1
    · intro hdiff s hmem
      simp only [List.mem_cons, List.mem_singleton, Event.invoke.injEq, reduceCtorEq,
        false_or, List.not_mem_nil, or_false] at hmem
      exact hdiff hmem.1.symm
  · have hrun := tryRunIsolated_attach_failure g gl f
      ⟨0, t.trace ++ [.detachThread t.graalCurrentThreadHandle 0]⟩ hc hp rfl ha
    rw [hrun]
    dsimp only
    rw [callEvents_append]
    refine ⟨?_, ?_, ?_, ?_, ?_⟩
    · rfl
    · simp [Event.isAttach, List.countP_cons]
    · intro h' hh'
      rw [hh'] at ha
      exact absurd rfl ha
    · intro x s hmem
      simp at hmem
    · intro _ s hmem
      simp at hmem

/-- Witness for C3: slot `5`, main-thread handle `1`, detach succeeding and the next attach
handing out `7`. -/
theorem fresh_attach_after_successful_detach_witness :
    tryRunIsolated (constGraal 0 (0, 7) 0) ⟨0, 1⟩ (fun h => h + 100)
        (detachThead (constGraal 0 (0, 7) 0) ⟨0, 1⟩ ⟨5, []⟩) =
      (107, ⟨7, [.detachThread 5 0, .getCurrentThread 0, .attachThread 0 7,
        .invoke 7 7]⟩) :=
  (fresh_attach_after_successful_detach (constGraal 0 (0, 7) 0) ⟨0, 1⟩ (fun h => h + 100)
    ⟨5, []⟩ rfl (by decide) (by decide) rfl rfl).2.2.1 7 rfl

/-- C4: the slot holds `h`, not the main-thread handle, and `graal_detach_thread h`
returns a status other than `0`.  Then the slot still holds `h` after `detachThead`, and
the next `tryRunIsolated` (isolate created, probe replying `nullptr`) runs the operation
exactly once, with `h`, and does not call `graal_attach_thread`. -/
theorem cached_handle_reused_after_failed_detach {R : Type} [Inhabited R] (g : Graal)
    (gl : Globals) (f : Handle → R) (t : Thread)
    (hc : gl.createIsolateResult = 0)
    (hne : t.graalCurrentThreadHandle ≠ 0)
    (hmain : t.graalCurrentThreadHandle ≠ gl.graalIsolateThreadHandle)
    (hd : g.graal_detach_thread t.trace t.graalCurrentThreadHandle ≠ 0)
    (hp : g.graal_get_current_thread
      (t.trace ++ [.detachThread t.graalCurrentThreadHandle
        (g.graal_detach_thread t.trace t.graalCurrentThreadHandle)]) = 0) :
    (detachThead g gl t).graalCurrentThreadHandle = t.graalCurrentThreadHandle ∧
    tryRunIsolated g gl f (detachThead g gl t) =
      (f t.graalCurrentThreadHandle,
        ⟨t.graalCurrentThreadHandle, t.trace ++
          [.detachThread t.graalCurrentThreadHandle
            (g.graal_detach_thread t.trace t.graalCurrentThreadHandle),
           .getCurrentThread 0,
           .invoke t.graalCurrentThreadHandle t.graalCurrentThreadHandle]⟩) ∧
    callEvents (detachThead g gl t) (tryRunIsolated g gl f (detachThead g gl t)).2 =
      [.getCurrentThread 0,
       .invoke t.graalCurrentThreadHandle t.graalCurrentThreadHandle] ∧
    (callEvents (detachThead g gl t)
      (tryRunIsolated g gl f (detachThead g gl t)).2).countP Event.isInvoke = 1 ∧
    (callEvents (detachThead g gl t)
      (tryRunIsolated g gl f (detachThead g gl t)).2).countP Event.isAttach = 0 := by
  rw [detachThead_failure g gl t hne hmain hd]
  have hrun := tryRunIsolated_cached g gl f
    ⟨t.graalCurrentThreadHandle, t.trace ++ [.detachThread t.graalCurrentThreadHandle
      (g.graal_detach_thread t.trace t.graalCurrentThreadHandle)]⟩ hc hp hne
  rw [hrun]
  dsimp only
  rw [callEvents_append]
  refine ⟨?_, ?_, ?_, ?_, ?_⟩
  · rfl
  · simp
  · rfl
  · simp [Event.isInvoke, List.countP_cons]
  · simp [Event.isAttach, List.countP_cons]

/-- Witness for C4: slot `5`, main-thread handle `1`, detach failing with status `3`. -/
theorem cached_handle_reused_after_failed_detach_witness :
    tryRunIsolated (constGraal 0 (0, 7) 3) ⟨0, 1⟩ (fun h => h + 100)
        (detachThead (constGraal 0 (0, 7) 3) ⟨0, 1⟩ ⟨5, []⟩) =
      (105, ⟨5, [.detachThread 5 3, .getCurrentThread 0, .invoke 5 5]⟩) :=
  (cached_handle_reused_after_failed_detach (constGraal 0 (0, 7) 3) ⟨0, 1⟩
    (fun h => h + 100) ⟨5, []⟩ rfl (by decide) (by decide) (by decide) rfl).2.1

/-- C5: when `createIsolateResult` is not `0`, for every operation and every slot,
`tryRunIsolated` returns the value-initialised result and leaves the thread as it was: the
slot is unchanged and the history has no new event, so the operation did not run and
neither the probe nor `graal_attach_thread` was called. -/
theorem tryRunIsolated_creation_failed {R : Type} [Inhabited R] (g : Graal) (gl : Globals)
    (f : Handle → R) (t : Thread) (hc : gl.createIsolateResult ≠ 0) :
    (tryRunIsolated g gl f t).1 = default ∧
    (tryRunIsolated g gl f t).2.graalCurrentThreadHandle = t.graalCurrentThreadHandle ∧
    (tryRunIsolated g gl f t).2.trace = t.trace ∧
    callEvents t (tryRunIsolated g gl f t).2 = [] := by
  rw [tryRunIsolated_not_created g gl f t hc]
  simp [callEvents]

/-- Witness for C5: creation status `-1`, a cached handle `5`, and a runtime that would
reply to every call. -/
theorem tryRunIsolated_creation_failed_witness :
    (tryRunIsolated (constGraal 9 (0, 7) 0) ⟨-1, 1⟩ (fun h => h + 100) ⟨5, []⟩).1 = 0 ∧
    (tryRunIsolated (constGraal 9 (0, 7) 0) ⟨-1, 1⟩ (fun h => h + 100) ⟨5, []⟩).2.trace
      = [] := by
  have h := tryRunIsolated_creation_failed (constGraal 9 (0, 7) 0) ⟨-1, 1⟩
    (fun h => h + 100) ⟨5, []⟩ (by decide)
  exact ⟨h.1, h.2.2.1⟩

/-- C6: isolate created, probe replying `nullptr`, slot empty and `graal_attach_thread`
returning a status other than `0`: `tryRunIsolated` returns the value-initialised result,
leaves the slot empty, does not run the operation, and has called `graal_attach_thread`
exactly once (the events of the call are the probe and that one attach). -/
theorem tryRunIsolated_attach_failed {R : Type} [Inhabited R] (g : Graal) (gl : Globals)
    (f : Handle → R) (t : Thread)
    (hc : gl.createIsolateResult = 0)
    (hp : g.graal_get_current_thread t.trace = 0)
    (hs : t.graalCurrentThreadHandle = 0)
    (ha : (g.graal_attach_thread (t.trace ++ [.getCurrentThread 0])).1 ≠ 0) :
    (tryRunIsolated g gl f t).1 = default ∧
    (tryRunIsolated g gl f t).2.graalCurrentThreadHandle = 0 ∧
    callEvents t (tryRunIsolated g gl f t).2 =
      [.getCurrentThread 0,
       .attachThread (g.graal_attach_thread (t.trace ++ [.getCurrentThread 0])).1
         (g.graal_attach_thread (t.trace ++ [.getCurrentThread 0])).2] ∧
    (callEvents t (tryRunIsolated g gl f t).2).countP Event.isAttach = 1 ∧
    (callEvents t (tryRunIsolated g gl f t).2).countP Event.isInvoke = 0 := by
  have hrun := tryRunIsolated_attach_failure g gl f t hc hp hs ha
  have hev := callEvents_of_trace t (tryRunIsolated g gl f t).2 _
    (by rw [hrun])
  rw [hev, hrun]
  refine ⟨rfl, rfl, rfl, ?_, ?_⟩
  · simp [Event.isAttach, List.countP_cons]
  · simp [Event.isInvoke, List.countP_cons]

/-- Witness for C6: an empty slot and an attach that fails with status `2`. -/
theorem tryRunIsolated_attach_failed_witness :
    (tryRunIsolated (constGraal 0 (2, 0) 0) ⟨0, 1⟩ (fun h => h + 100) ⟨0, []⟩).1 = 0 ∧
    callEvents ⟨0, []⟩
      (tryRunIsolated (constGraal 0 (2, 0) 0) ⟨0, 1⟩ (fun h => h + 100) ⟨0, []⟩).2 =
      [.getCurrentThread 0, .attachThread 2 0] := by
  have h := tryRunIsolated_attach_failed (constGraal 0 (2, 0) 0) ⟨0, 1⟩
    (fun h => h + 100) ⟨0, []⟩ rfl rfl rfl (by decide)
  exact ⟨h.1, h.2.2.1⟩

/-- C7: isolate created, probe replying `nullptr`, slot empty and `graal_attach_thread`
returning `0` with handle `h`: after `tryRunIsolated` the slot holds `h`, the operation
has run exactly once, with argument `h` and with the slot already holding `h`, and the
value returned is the result `f h` of the operation. -/
theorem tryRunIsolated_attach_succeeded {R : Type} [Inhabited R] (g : Graal)
    (gl : Globals) (f : Handle → R) (t : Thread) (h : Handle)
    (hc : gl.createIsolateResult = 0)
    (hp : g.graal_get_current_thread t.trace = 0)
    (hs : t.graalCurrentThreadHandle = 0)
    (ha : g.graal_attach_thread (t.trace ++ [.getCurrentThread 0]) = (0, h)) :
    (tryRunIsolated g gl f t).1 = f h ∧
    (tryRunIsolated g gl f t).2.graalCurrentThreadHandle = h ∧
    callEvents t (tryRunIsolated g gl f t).2 =
      [.getCurrentThread 0, .attachThread 0 h, .invoke h h] ∧
    (callEvents t (tryRunIsolated g gl f t).2).countP Event.isInvoke = 1 := by
  have hrun := tryRunIsolated_attach_success g gl f t hc hp hs (by rw [ha])
  rw [ha] at hrun
  have hev := callEvents_of_trace t (tryRunIsolated g gl f t).2 _
    (by rw [hrun])
  rw [hev, hrun]
  refine ⟨rfl, rfl, rfl, ?_⟩
  simp [Event.isInvoke, List.countP_cons]

/-- Witness for C7: an empty slot and an attach that hands out `7`. -/
theorem tryRunIsolated_attach_succeeded_witness :
    (tryRunIsolated (constGraal 0 (0, 7) 0) ⟨0, 1⟩ (fun h => h + 100) ⟨0, []⟩).1 = 107 ∧
    (tryRunIsolated (constGraal 0 (0, 7) 0) ⟨0, 1⟩ (fun h => h + 100)
      ⟨0, []⟩).2.graalCurrentThreadHandle = 7 ∧
    callEvents ⟨0, []⟩
      (tryRunIsolated (constGraal 0 (0, 7) 0) ⟨0, 1⟩ (fun h => h + 100) ⟨0, []⟩).2 =
      [.getCurrentThread 0, .attachThread 0 7, .invoke 7 7] := by
  have h := tryRunIsolated_attach_succeeded (constGraal 0 (0, 7) 0) ⟨0, 1⟩
    (fun h => h + 100) ⟨0, []⟩ 7 rfl rfl rfl rfl
  exact ⟨h.1, h.2.1, h.2.2.1⟩

/-- C8: isolate created and the probe replying a handle `p`: for every slot, also one
holding another handle, `tryRunIsolated` runs the operation exactly once, with `p`,
returns `f p`, does not call `graal_attach_thread` and leaves the slot exactly as it was. -/
theorem tryRunIsolated_probe_takes_precedence {R : Type} [Inhabited R] (g : Graal)
    (gl : Globals) (f : Handle → R) (t : Thread) (p : Handle)
    (hc : gl.createIsolateResult = 0)
    (hp : g.graal_get_current_thread t.trace = p)
    (hp0 : p ≠ 0) :
    (tryRunIsolated g gl f t).1 = f p ∧
    (tryRunIsolated g gl f t).2.graalCurrentThreadHandle = t.graalCurrentThreadHandle ∧
    callEvents t (tryRunIsolated g gl f t).2 =
      [.getCurrentThread p, .invoke p t.graalCurrentThreadHandle] ∧
    (callEvents t (tryRunIsolated g gl f t).2).countP Event.isInvoke = 1 ∧
    (callEvents t (tryRunIsolated g gl f t).2).countP Event.isAttach = 0 ∧
    (∀ x s, Event.invoke x s ∈ callEvents t (tryRunIsolated g gl f t).2 → x = p) := by
  have hrun := tryRunIsolated_reentrant g gl f t hc (by rw [hp]; exact hp0)
  rw [hp] at hrun
  have hev := callEvents_of_trace t (tryRunIsolated g gl f t).2 _
    (by rw [hrun])
  rw [hev, hrun]
  refine ⟨rfl, rfl, rfl, ?_, ?_, ?_⟩
  · simp [Event.isInvoke, List.countP_cons]
  · simp [Event.isAttach, List.countP_cons]
  · intro x s hmem
    simp only [List.mem_cons, List.mem_singleton, Event.invoke.injEq, reduceCtorEq,
      false_or, List.not_mem_nil, or_false] at hmem
    exact hmem.1

/-- Witness for C8: the probe replies `9` while the slot caches `5`. -/
theorem tryRunIsolated_probe_takes_precedence_witness :
    (tryRunIsolated (constGraal 9 (0, 7) 0) ⟨0, 1⟩ (fun h => h + 100) ⟨5, []⟩).1 = 109 ∧
    (tryRunIsolated (constGraal 9 (0, 7) 0) ⟨0, 1⟩ (fun h => h + 100)
      ⟨5, []⟩).2.graalCurrentThreadHandle = 5 ∧
    callEvents ⟨5, []⟩
      (tryRunIsolated (constGraal 9 (0, 7) 0) ⟨0, 1⟩ (fun h => h + 100) ⟨5, []⟩).2 =
      [.getCurrentThread 9, .invoke 9 5] := by
  have h := tryRunIsolated_probe_takes_precedence (constGraal 9 (0, 7) 0) ⟨0, 1⟩
    (fun h => h + 100) ⟨5, []⟩ 9 rfl rfl (by decide)
  exact ⟨h.1, h.2.1, h.2.2.1⟩

/-- C9: for every thread and every runtime, the slot after `tryRunIsolated` is the slot
before it, unless the slot was empty, the isolate was created, the probe replied `nullptr`
and `graal_attach_thread` returned `0`, in which case it is the handle attach returned.
So a non-empty slot is never overwritten or cleared; and the call only appends events to
the history, none of them a call of `graal_detach_thread`. -/
theorem tryRunIsolated_slot_frame {R : Type} [Inhabited R] (g : Graal) (gl : Globals)
    (f : Handle → R) (t : Thread) :
    (tryRunIsolated g gl f t).2.graalCurrentThreadHandle =
      (if t.graalCurrentThreadHandle = 0 ∧ gl.createIsolateResult = 0 ∧
          g.graal_get_current_thread t.trace = 0 ∧
          (g.graal_attach_thread (t.trace ++ [.getCurrentThread 0])).1 = 0
        then (g.graal_attach_thread (t.trace ++ [.getCurrentThread 0])).2
        else t.graalCurrentThreadHandle) ∧
    (t.graalCurrentThreadHandle ≠ 0 →
      (tryRunIsolated g gl f t).2.graalCurrentThreadHandle = t.graalCurrentThreadHandle) ∧
    (tryRunIsolated g gl f t).2.trace =
      t.trace ++ callEvents t (tryRunIsolated g gl f t).2 ∧
    (∀ e ∈ callEvents t (tryRunIsolated g gl f t).2, e.isDetach = false) := by
  have hslot : (tryRunIsolated g gl f t).2.graalCurrentThreadHandle =
      (if t.graalCurrentThreadHandle = 0 ∧ gl.createIsolateResult = 0 ∧
          g.graal_get_current_thread t.trace = 0 ∧
          (g.graal_attach_thread (t.trace ++ [.getCurrentThread 0])).1 = 0
        then (g.graal_attach_thread (t.trace ++ [.getCurrentThread 0])).2
        else t.graalCurrentThreadHandle) := by
    by_cases hc : gl.createIsolateResult = 0
    · by_cases hp : g.graal_get_current_thread t.trace = 0
      · by_cases hs : t.graalCurrentThreadHandle = 0
        · by_cases ha : (g.graal_attach_thread (t.trace ++ [.getCurrentThread 0])).1 = 0
          · rw [tryRunIsolated_attach_success g gl f t hc hp hs ha,
              if_pos ⟨hs, hc, hp, ha⟩]
          · rw [tryRunIsolated_attach_failure g gl f t hc hp hs ha,
              if_neg (fun h => ha h.2.2.2)]
            exact hs.symm
        · rw [tryRunIsolated_cached g gl f t hc hp hs, if_neg (fun h => hs h.1)]
      · rw [tryRunIsolated_reentrant g gl f t hc hp, if_neg (fun h => hp h.2.2.1)]
    · rw [tryRunIsolated_not_created g gl f t hc, if_neg (fun h => hc h.2.1)]
  obtain ⟨evs, he, hd⟩ := tryRunIsolated_trace g gl f t
  have hev := callEvents_of_trace t (tryRunIsolated g gl f t).2 evs he
  refine ⟨hslot, ?_, ?_, ?_⟩
  · intro hs
    rw [hslot, if_neg (fun h => hs h.1)]
  · rw [hev, he]
  · rw [hev]
    exact hd

/-- Witness for C9: a cached handle `5` survives a call in which the runtime would hand
out `7`. -/
theorem tryRunIsolated_slot_frame_witness :
    (tryRunIsolated (constGraal 0 (0, 7) 0) ⟨0, 1⟩ (fun h => h + 100)
      ⟨5, []⟩).2.graalCurrentThreadHandle = 5 :=
  (tryRunIsolated_slot_frame (constGraal 0 (0, 7) 0) ⟨0, 1⟩ (fun h => h + 100)
    ⟨5, []⟩).2.1 (by decide)

/-- C10: `detachThead` is idempotent.  On an empty slot it leaves the thread as it was (no
call of `graal_detach_thread`, slot empty), so `k ≥ 1` consecutive calls leave the same
state as one call; and after one call whose `graal_detach_thread` returned `0`, the slot
is empty and any `k` further calls leave the thread as that call left it (no further call
of `graal_detach_thread`). -/
theorem detachThead_idempotent (g : Graal) (gl : Globals) (t : Thread) (k : Nat) :
    (t.graalCurrentThreadHandle = 0 →
      detachThead g gl t = t ∧
      (1 ≤ k → detachTimes g gl k t = detachTimes g gl 1 t ∧
        (detachTimes g gl k t).graalCurrentThreadHandle = 0)) ∧
    (t.graalCurrentThreadHandle ≠ 0 →
      t.graalCurrentThreadHandle ≠ gl.graalIsolateThreadHandle →
      g.graal_detach_thread t.trace t.graalCurrentThreadHandle = 0 →
      (detachThead g gl t).graalCurrentThreadHandle = 0 ∧
      detachTimes g gl k (detachThead g gl t) = detachThead g gl t ∧
      callEvents (detachThead g gl t) (detachTimes g gl k (detachThead g gl t)) = [] ∧
      detachTimes g gl (k + 1) t = detachTimes g gl 1 t) := by
  refine ⟨?_, ?_⟩
  · intro hs
    refine ⟨detachThead_guard g gl t (Or.inl hs), ?_⟩
    intro _
    rw [detachTimes_empty g gl k t hs, detachTimes_empty g gl 1 t hs]
    exact ⟨rfl, hs⟩
  · intro hne hmain hr
    have hslot : (detachThead g gl t).graalCurrentThreadHandle = 0 := by
      rw [detachThead_success g gl t hne hmain hr]
    have hk := detachTimes_empty g gl k (detachThead g gl t) hslot
    refine ⟨hslot, hk, ?_, ?_⟩
    · rw [hk]
      simp [callEvents]
    · show detachTimes g gl k (detachThead g gl t) = detachTimes g gl 0 (detachThead g gl t)
      rw [hk]
      rfl

/-- Witness for C10: three further calls after a successful detach of `5`, and three calls
on an unattached thread. -/
theorem detachThead_idempotent_witness :
    detachTimes (constGraal 0 (0, 7) 0) ⟨0, 1⟩ 3
        (detachThead (constGraal 0 (0, 7) 0) ⟨0, 1⟩ ⟨5, []⟩) =
      detachThead (constGraal 0 (0, 7) 0) ⟨0, 1⟩ ⟨5, []⟩ ∧
    detachTimes (constGraal 0 (0, 7) 0) ⟨0, 1⟩ 3 ⟨0, []⟩ =
      detachTimes (constGraal 0 (0, 7) 0) ⟨0, 1⟩ 1 ⟨0, []⟩ :=
  ⟨((detachThead_idempotent (constGraal 0 (0, 7) 0) ⟨0, 1⟩ ⟨5, []⟩ 3).2
      (by decide) (by decide) rfl).2.1,
   (((detachThead_idempotent (constGraal 0 (0, 7) 0) ⟨0, 1⟩ ⟨0, []⟩ 3).1 rfl).2
      (by decide)).1⟩

/-- C11 (as stated, refuted): one thread of the set, with the isolate created, an empty
slot, the probe replying `nullptr` and `graal_attach_thread` failing with status `2`: its
operation runs zero times, not once. -/
theorem each_operation_runs_once_counterexample :
    (⟨0, 1⟩ : Globals).createIsolateResult = 0 ∧
    @invocationsOfEach Unit _ ⟨0, 1⟩
      [⟨constGraal 0 (2, 0) 0, fun _ => (), ⟨0, []⟩⟩,
       ⟨constGraal 0 (0, 7) 0, fun _ => (), ⟨0, []⟩⟩] = [0, 1] := by
  decide

/-- C11 (amended): for any set of threads each calling `tryRunIsolated` exactly once, each
on its own slot and with its own replies from the runtime: no operation runs more than
once; when `createIsolateResult` is not `0` every operation runs zero times; and when it
is `0` a thread's operation runs exactly once if the probe replies a handle, or its slot
holds one, or its attach returns `0`, and zero times otherwise (attach failed). -/
theorem each_operation_runs_at_most_once {R : Type} [Inhabited R] (gl : Globals)
    (cs : List (Caller R)) :
    (∀ n ∈ invocationsOfEach gl cs, n ≤ 1) ∧
    (gl.createIsolateResult ≠ 0 → ∀ n ∈ invocationsOfEach gl cs, n = 0) ∧
    (gl.createIsolateResult = 0 → ∀ c ∈ cs,
      invocations c.runtime gl c.operation c.thread =
        if c.runtime.graal_get_current_thread c.thread.trace ≠ 0 ∨
            c.thread.graalCurrentThreadHandle ≠ 0 ∨
            (c.runtime.graal_attach_thread
              (c.thread.trace ++ [.getCurrentThread 0])).1 = 0
          then 1 else 0) := by
  refine ⟨?_, ?_, ?_⟩
  · intro n hn
    obtain ⟨c, -, rfl⟩ := List.mem_map.mp hn
    rw [invocations_eq]
    split <;> omega
  · intro hc n hn
    obtain ⟨c, -, rfl⟩ := List.mem_map.mp hn
    rw [invocations_eq, if_neg (fun h => hc h.1)]
  · intro hc c _
    rw [invocations_eq]
    by_cases h : c.runtime.graal_get_current_thread c.thread.trace ≠ 0 ∨
        c.thread.graalCurrentThreadHandle ≠ 0 ∨
        (c.runtime.graal_attach_thread (c.thread.trace ++ [.getCurrentThread 0])).1 = 0
    · rw [if_pos ⟨hc, h⟩, if_pos h]
    · rw [if_neg (fun h' => h h'.2), if_neg h]

/-- Witness for C11: two threads, the isolate created; the first one's attach fails. -/
theorem each_operation_runs_at_most_once_witness :
    @invocations Unit _ (constGraal 0 (0, 7) 0) ⟨0, 1⟩ (fun _ => ()) ⟨0, []⟩ = 1 ∧
    @invocations Unit _ (constGraal 0 (2, 0) 0) ⟨0, 1⟩ (fun _ => ()) ⟨0, []⟩ = 0 :=
  ⟨((@each_operation_runs_at_most_once Unit _ ⟨0, 1⟩
      [⟨constGraal 0 (2, 0) 0, fun _ => (), ⟨0, []⟩⟩,
       ⟨constGraal 0 (0, 7) 0, fun _ => (), ⟨0, []⟩⟩]).2.2 rfl
      ⟨constGraal 0 (0, 7) 0, fun _ => (), ⟨0, []⟩⟩ (by simp)).trans (by decide),
   ((@each_operation_runs_at_most_once Unit _ ⟨0, 1⟩
      [⟨constGraal 0 (2, 0) 0, fun _ => (), ⟨0, []⟩⟩,
       ⟨constGraal 0 (0, 7) 0, fun _ => (), ⟨0, []⟩⟩]).2.2 rfl
      ⟨constGraal 0 (2, 0) 0, fun _ => (), ⟨0, []⟩⟩ (by simp)).trans (by decide)⟩

/-- C12 (as stated, refuted): a worker thread, isolate created, every call succeeding and
attach handing out `7`.  At the end of its body the slot holds `7`; when `~Test` starts the
slot is empty and one `graal_detach_thread` has already been called, and the
`tryRunIsolated` of `~Test` calls `graal_attach_thread` anew. -/
theorem test_teardown_sees_attached_thread_counterexample :
    (workerBody (constGraal 0 (0, 7) 0) ⟨0, 1⟩ ⟨0, []⟩).graalCurrentThreadHandle = 7 ∧
    (Detacher.destruct (constGraal 0 (0, 7) 0) ⟨0, 1⟩
      (workerBody (constGraal 0 (0, 7) 0) ⟨0, 1⟩ ⟨0, []⟩)).graalCurrentThreadHandle = 0 ∧
    (Detacher.destruct (constGraal 0 (0, 7) 0) ⟨0, 1⟩
      (workerBody (constGraal 0 (0, 7) 0) ⟨0, 1⟩ ⟨0, []⟩)).detachCalls = 1 ∧
    (callEvents
      (Detacher.destruct (constGraal 0 (0, 7) 0) ⟨0, 1⟩
        (workerBody (constGraal 0 (0, 7) 0) ⟨0, 1⟩ ⟨0, []⟩))
      (tryRunIsolated (constGraal 0 (0, 7) 0) ⟨0, 1⟩ (fun _ => ())
        (Detacher.destruct (constGraal 0 (0, 7) 0) ⟨0, 1⟩
          (workerBody (constGraal 0 (0, 7) 0) ⟨0, 1⟩ ⟨0, []⟩))).2).countP
        Event.isAttach = 1 ∧
    (workerThread (constGraal 0 (0, 7) 0) ⟨0, 1⟩ ⟨0, []⟩).trace =
      [.getCurrentThread 0, .attachThread 0 7, .invoke 7 7,
       .getCurrentThread 0, .invoke 7 7,
       .detachThread 7 0,
       .getCurrentThread 0, .attachThread 0 7, .invoke 7 7, .detachThread 7 0] := by
  decide

/-- C12 (amended): at thread exit `detacher` is torn down first and `test` second.  With
the slot holding a handle `h` other than the main-thread handle, the isolate created and
the probe replying `nullptr`: a call `graal_detach_thread h` precedes the `tryRunIsolated`
of `~Test`; when it returns `0` that `tryRunIsolated` finds the slot empty and calls
`graal_attach_thread` exactly once; when it returns another status the slot still holds
`h`, no attach is made and the operation runs with `h`. -/
theorem detacher_runs_before_test_teardown (g : Graal) (gl : Globals) (t : Thread)
    (hc : gl.createIsolateResult = 0)
    (hne : t.graalCurrentThreadHandle ≠ 0)
    (hmain : t.graalCurrentThreadHandle ≠ gl.graalIsolateThreadHandle)
    (hp : g.graal_get_current_thread
      (t.trace ++ [.detachThread t.graalCurrentThreadHandle
        (g.graal_detach_thread t.trace t.graalCurrentThreadHandle)]) = 0) :
    threadExit g gl t =
      detachThead g gl (tryRunIsolated g gl (fun _ => ()) (detachThead g gl t)).2 ∧
    (detachThead g gl t).trace = t.trace ++
      [.detachThread t.graalCurrentThreadHandle
        (g.graal_detach_thread t.trace t.graalCurrentThreadHandle)] ∧
    (g.graal_detach_thread t.trace t.graalCurrentThreadHandle = 0 →
      (detachThead g gl t).graalCurrentThreadHandle = 0 ∧
      (callEvents (detachThead g gl t)
        (tryRunIsolated g gl (fun _ => ()) (detachThead g gl t)).2).countP
          Event.isAttach = 1) ∧
    (g.graal_detach_thread t.trace t.graalCurrentThreadHandle ≠ 0 →
      (detachThead g gl t).graalCurrentThreadHandle = t.graalCurrentThreadHandle ∧
      callEvents (detachThead g gl t)
        (tryRunIsolated g gl (fun _ => ()) (detachThead g gl t)).2 =
        [.getCurrentThread 0,
         .invoke t.graalCurrentThreadHandle t.graalCurrentThreadHandle]) := by
  refine ⟨rfl, ?_, ?_, ?_⟩
  · by_cases hr : g.graal_detach_thread t.trace t.graalCurrentThreadHandle = 0
    · rw [detachThead_success g gl t hne hmain hr, hr]
    · rw [detachThead_failure g gl t hne hmain hr]
  · intro hr
    have e := detachThead_success g gl t hne hmain hr
    rw [hr] at hp
    have hs : (detachThead g gl t).graalCurrentThreadHandle = 0 := by rw [e]
    have hp' : g.graal_get_current_thread (detachThead g gl t).trace = 0 := by
      rw [e]
      exact hp
    exact ⟨hs, attach_once_of_empty g gl (fun _ => ()) _ hc hp' hs⟩
  · intro hr
    have e := detachThead_failure g gl t hne hmain hr
    have hs : (detachThead g gl t).graalCurrentThreadHandle = t.graalCurrentThreadHandle := by
      rw [e]
    have hp' : g.graal_get_current_thread (detachThead g gl t).trace = 0 := by
      rw [e]
      exact hp
    have hrun := tryRunIsolated_cached g gl (fun _ => ()) (detachThead g gl t) hc hp'
      (by rw [hs]; exact hne)
    refine ⟨hs, ?_⟩
    rw [callEvents_of_trace _ _ _ (by rw [hrun]), hs]

/-- Witness for C12: slot `5` at thread exit, main-thread handle `1`, every call
succeeding and attach handing out `7`. -/
theorem detacher_runs_before_test_teardown_witness :
    (detachThead (constGraal 0 (0, 7) 0) ⟨0, 1⟩ ⟨5, []⟩).trace = [.detachThread 5 0] ∧
    (callEvents (detachThead (constGraal 0 (0, 7) 0) ⟨0, 1⟩ ⟨5, []⟩)
      (tryRunIsolated (constGraal 0 (0, 7) 0) ⟨0, 1⟩ (fun _ => ())
        (detachThead (constGraal 0 (0, 7) 0) ⟨0, 1⟩ ⟨5, []⟩)).2).countP
          Event.isAttach = 1 := by
  have h := detacher_runs_before_test_teardown (constGraal 0 (0, 7) 0) ⟨0, 1⟩ ⟨5, []⟩
    rfl (by decide) (by decide) rfl
  exact ⟨h.2.1, (h.2.2.1 rfl).2⟩

/-- C13 (as stated, refuted): the program with the isolate created and every call
succeeding (attach handing out `7`, main-thread handle `1`): 16 workers, but 32 calls of
`graal_attach_thread` in total and two calls of `graal_detach_thread` on each worker; and
with creation status `3`, `main` returns `3` and has no worker at all. -/
theorem main_sixteen_attaches_counterexample :
    (main (fun _ => constGraal 0 (0, 7) 0) ⟨0, 1⟩ 16).2.length = 16 ∧
    ((main (fun _ => constGraal 0 (0, 7) 0) ⟨0, 1⟩ 16).2.map Thread.attachCalls).sum = 32 ∧
    (main (fun _ => constGraal 0 (0, 7) 0) ⟨0, 1⟩ 16).2.map Thread.detachCalls =
      List.replicate 16 2 ∧
    main (fun _ => constGraal 0 (0, 7) 0) ⟨3, 1⟩ 16 = (3, []) := by
  decide

/-- C13 (amended): the program with `threads.capacity()` being 16, every worker seeing a
runtime whose calls all succeed.  When the isolate was created, `main` returns `0` after
16 workers, each of which ends with an empty slot after running its operation three times,
calling `graal_attach_thread` twice and `graal_detach_thread` twice: 32 attaches, 48
operations and 32 detaches in total.  When the isolate was not created, `main` returns the
creation status and starts no worker, so that no call into the runtime is made and no
operation runs. -/
theorem main_end_to_end (g : Nat → Graal) (gl : Globals)
    (hg : ∀ i, AllCallsSucceed gl (g i)) :
    (gl.createIsolateResult = 0 →
      (main g gl 16).1 = 0 ∧
      (main g gl 16).2.length = 16 ∧
      (∀ t ∈ (main g gl 16).2, t.graalCurrentThreadHandle = 0 ∧ t.attachCalls = 2 ∧
        t.invokeCalls = 3 ∧ t.detachCalls = 2) ∧
      ((main g gl 16).2.map Thread.attachCalls).sum = 32 ∧
      ((main g gl 16).2.map Thread.invokeCalls).sum = 48 ∧
      ((main g gl 16).2.map Thread.detachCalls).sum = 32) ∧
    (gl.createIsolateResult ≠ 0 → main g gl 16 = (gl.createIsolateResult, [])) := by
  refine ⟨?_, ?_⟩
  · intro hc
    have hmain : main g gl 16 =
        (0, (List.range 16).map (fun i => workerThread (g i) gl ⟨0, []⟩)) := by
      unfold main
      rw [if_neg (fun h => h hc)]
    have hlen : (main g gl 16).2.length = 16 := by
      rw [hmain]
      simp
    have hall : ∀ t ∈ (main g gl 16).2, t.graalCurrentThreadHandle = 0 ∧
        t.attachCalls = 2 ∧ t.invokeCalls = 3 ∧ t.detachCalls = 2 := by
      intro t ht
      rw [hmain] at ht
      obtain ⟨i, -, rfl⟩ := List.mem_map.mp ht
      exact workerThread_counts (g i) gl hc (hg i)
    refine ⟨by rw [hmain], hlen, hall, ?_, ?_, ?_⟩
    · refine sum_of_all_eq _ 16 2 (by rw [List.length_map, hlen]) ?_
      intro x hx
      obtain ⟨t, ht, rfl⟩ := List.mem_map.mp hx
      exact (hall t ht).2.1
    · refine sum_of_all_eq _ 16 3 (by rw [List.length_map, hlen]) ?_
      intro x hx
      obtain ⟨t, ht, rfl⟩ := List.mem_map.mp hx
      exact (hall t ht).2.2.1
    · refine sum_of_all_eq _ 16 2 (by rw [List.length_map, hlen]) ?_
      intro x hx
      obtain ⟨t, ht, rfl⟩ := List.mem_map.mp hx
      exact (hall t ht).2.2.2
  · intro hc
    unfold main
    rw [if_pos hc]

/-- Witness for C13: every worker sees a runtime that hands out `7`; main-thread handle
`1`. -/
theorem main_end_to_end_witness :
    (∀ i : Nat, AllCallsSucceed ⟨0, 1⟩ ((fun _ => constGraal 0 (0, 7) 0) i)) ∧
    ((main (fun _ => constGraal 0 (0, 7) 0) ⟨0, 1⟩ 16).2.map Thread.attachCalls).sum = 32 ∧
    ((main (fun _ => constGraal 0 (0, 7) 0) ⟨0, 1⟩ 16).2.map Thread.detachCalls).sum = 32 :=
  ⟨fun _ => constGraal_allCallsSucceed ⟨0, 1⟩ 7 (by decide) (by decide),
   ((main_end_to_end (fun _ => constGraal 0 (0, 7) 0) ⟨0, 1⟩
      (fun _ => constGraal_allCallsSucceed ⟨0, 1⟩ 7 (by decide) (by decide))).1
      rfl).2.2.2.1,
   ((main_end_to_end (fun _ => constGraal 0 (0, 7) 0) ⟨0, 1⟩
      (fun _ => constGraal_allCallsSucceed ⟨0, 1⟩ 7 (by decide) (by decide))).1
      rfl).2.2.2.2.2⟩

/-- C14: the whole life of one worker thread as the code runs it, `Test()`, `print()`,
`~Detacher()`, then `~Test()`, from an empty slot, with the isolate created, the probe
replying `nullptr` and every attach and detach succeeding with handles that are neither
`nullptr` nor the main-thread handle.  The thread ends with an empty slot; the operation
ran exactly three times, `graal_attach_thread` was called exactly twice and
`graal_detach_thread` exactly twice, each detach receiving the handle of the latest
attach. -/
theorem worker_lifecycle (g : Graal) (gl : Globals) (tr : List Event)
    (hc : gl.createIsolateResult = 0) (hg : AllCallsSucceed gl g) :
    workerThread g gl ⟨0, tr⟩ =
      Test.destruct g gl (Detacher.destruct g gl (Test.print g gl
        (Test.construct g gl ⟨0, tr⟩))) ∧
    (workerThread g gl ⟨0, tr⟩).graalCurrentThreadHandle = 0 ∧
    (∃ h1 h2 : Handle, h1 ≠ 0 ∧ h1 ≠ gl.graalIsolateThreadHandle ∧ h2 ≠ 0 ∧
      h2 ≠ gl.graalIsolateThreadHandle ∧
      callEvents ⟨0, tr⟩ (workerThread g gl ⟨0, tr⟩) =
        [.getCurrentThread 0, .attachThread 0 h1, .invoke h1 h1,
         .getCurrentThread 0, .invoke h1 h1,
         .detachThread h1 0,
         .getCurrentThread 0, .attachThread 0 h2, .invoke h2 h2, .detachThread h2 0]) ∧
    (callEvents ⟨0, tr⟩ (workerThread g gl ⟨0, tr⟩)).countP Event.isInvoke = 3 ∧
    (callEvents ⟨0, tr⟩ (workerThread g gl ⟨0, tr⟩)).countP Event.isAttach = 2 ∧
    (callEvents ⟨0, tr⟩ (workerThread g gl ⟨0, tr⟩)).countP Event.isDetach = 2 := by
  obtain ⟨h1, h2, h1ne, h1main, h2ne, h2main, e⟩ := workerThread_trace g gl hc hg tr
  have hev := callEvents_of_trace ⟨0, tr⟩ (workerThread g gl ⟨0, tr⟩) _ (by rw [e])
  refine ⟨rfl, by rw [e], ⟨h1, h2, h1ne, h1main, h2ne, h2main, hev⟩, ?_, ?_, ?_⟩
  · rw [hev]
    simp [Event.isInvoke, List.countP_cons]
  · rw [hev]
    simp [Event.isAttach, List.countP_cons]
  · rw [hev]
    simp [Event.isDetach, List.countP_cons]

/-- Witness for C14: a runtime that hands out `7`, main-thread handle `1`, empty history. -/
theorem worker_lifecycle_witness :
    AllCallsSucceed ⟨0, 1⟩ (constGraal 0 (0, 7) 0) ∧
    (workerThread (constGraal 0 (0, 7) 0) ⟨0, 1⟩ ⟨0, []⟩).graalCurrentThreadHandle = 0 ∧
    (callEvents ⟨0, []⟩
      (workerThread (constGraal 0 (0, 7) 0) ⟨0, 1⟩ ⟨0, []⟩)).countP Event.isAttach = 2 :=
  ⟨constGraal_allCallsSucceed ⟨0, 1⟩ 7 (by decide) (by decide),
   (worker_lifecycle (constGraal 0 (0, 7) 0) ⟨0, 1⟩ [] rfl
      (constGraal_allCallsSucceed ⟨0, 1⟩ 7 (by decide) (by decide))).2.1,
   (worker_lifecycle (constGraal 0 (0, 7) 0) ⟨0, 1⟩ [] rfl
      (constGraal_allCallsSucceed ⟨0, 1⟩ 7 (by decide) (by decide))).2.2.2.2.1⟩

end AttachDetach
